import Mathlib

/-!
Verification of the FREDRICK AI backend (repository `icheftech/fredrick_ai`).

The development shallowly embeds the two code paths the specification talks
about:

* `src/backend/api.py` — the FastAPI surface: `verify_api_key`, `call_groq`,
  the four category handlers (`/chat`, `/risk-analysis`, `/compliance-check`,
  `/due-diligence`) and their prompt composition.  The remote Groq round trip
  is modelled by an oracle `remote : String → String → Except String String`
  mapping the composed (system, user) prompt pair either to the completion
  text (`Except.ok`) or to the text of a raised exception (`Except.error`).
  Each handler returns its FastAPI result together with a `Nat` counting how
  many times the completion client was invoked.
* `src/backend/fredrick.py` — the interactive Gemini `FREDRICK` class with its
  in-memory `conversation_history` list; the `generate_content` round trip is
  again an oracle, and the two `datetime.now()` calls are passed in as the
  timestamp parameters `t1`, `t2`.

Python truthiness (`if not expected_key`, `if request.context`,
`if request.risk_areas`) is modelled explicitly: `None`, `""` and `[]` are
falsy.
-/

set_option maxRecDepth 100000

namespace FredrickAI

/-- A FastAPI `HTTPException`: status code plus detail message. -/
structure HttpError where
  status : Nat
  detail : String
  deriving DecidableEq

namespace Api

/-- Request model of `POST /chat` (`class ChatRequest`).  `context = none`
models an absent JSON field. -/
structure ChatRequest where
  message : String
  context : Option String
  deriving DecidableEq

/-- Response model of `POST /chat` (`class ChatResponse`). -/
structure ChatResponse where
  response : String
  model : String
  deriving DecidableEq

/-- Request model of `POST /risk-analysis` (`class RiskAnalysisRequest`). -/
structure RiskAnalysisRequest where
  business_data : String
  risk_areas : Option (List String)
  deriving DecidableEq

/-- Response dict of `POST /risk-analysis`: `{"analysis": ..., "model": ...}`. -/
structure RiskAnalysisResponse where
  analysis : String
  model : String
  deriving DecidableEq

/-- Request model of `POST /compliance-check` (`class ComplianceCheckRequest`). -/
structure ComplianceCheckRequest where
  document : String
  compliance_framework : String
  deriving DecidableEq

/-- Response dict of `POST /compliance-check`:
`{"compliance_report": ..., "framework": ...}`. -/
structure ComplianceCheckResponse where
  compliance_report : String
  framework : String
  deriving DecidableEq

/-- Request model of `POST /due-diligence` (`class DueDiligenceRequest`). -/
structure DueDiligenceRequest where
  company_info : String
  focus_areas : Option (List String)
  deriving DecidableEq

/-- Response dict of `POST /due-diligence`:
`{"due_diligence_report": ..., "model": ...}`. -/
structure DueDiligenceResponse where
  due_diligence_report : String
  model : String
  deriving DecidableEq

/-- Python truthiness of an optional string value: `None` and `""` are falsy. -/
def truthyStr : Option String → Bool
  | none => false
  | some s => !(s == "")

/-- Python truthiness of an optional list value: `None` and `[]` are falsy. -/
def truthyList : Option (List String) → Bool
  | none => false
  | some l => !l.isEmpty

/-- `verify_api_key` (src/backend/api.py lines 22-29).  `expected` models
`os.getenv("FREDRICK_API_KEY")` (`none` = unset environment variable), and
`api_key` models the `X-API-Key` header read with `auto_error=False`
(`none` = header absent).  Python `if not expected_key` treats both an unset
and an empty secret as not configured. -/
def verify_api_key (expected api_key : Option String) : Except HttpError String :=
  match expected with
  | none => .error ⟨500, "API key not configured"⟩
  | some k =>
    if k = "" then .error ⟨500, "API key not configured"⟩
    else if api_key = some k then .ok k
    else .error ⟨401, "Invalid API key"⟩

/-- `call_groq` (src/backend/api.py lines 59-73): one round trip through the
completion client; any raised exception is re-raised as
`HTTPException(500, "Groq API error: " + str(e))`. -/
def call_groq (remote : String → String → Except String String)
    (system_prompt user_message : String) : Except HttpError String :=
  match remote system_prompt user_message with
  | .ok content => .ok content
  | .error e => .error ⟨500, "Groq API error: " ++ e⟩

/-- System prompt of `/chat` (triple-quoted literal, including the trailing
spaces and 4-space continuation indents of the Python source). -/
def chat_system_prompt : String :=
  "You are FREDRICK, the Executive AI CTO for Southern Shade LLC. \n    You provide strategic business intelligence, compliance oversight, and risk analysis. \n    Your responses are professional, analytical, and actionable."

/-- User message of `/chat`: `request.message`, prefixed with a `Context:`
section when `request.context` is truthy. -/
def chat_user_message (req : ChatRequest) : String :=
  match req.context with
  | some c =>
    if c = "" then req.message
    else "Context: " ++ c ++ "\n\nQuery: " ++ req.message
  | none => req.message

/-- System prompt of `/risk-analysis`. -/
def risk_system_prompt : String :=
  "You are FREDRICK\x27s risk analysis module. Evaluate business risks \n    across financial, operational, legal, and strategic dimensions. Provide a structured \n    risk assessment with severity levels and mitigation strategies."

/-- The optional labelled section of the `/risk-analysis` user message:
appended only when `request.risk_areas` is truthy. -/
def risk_areas_section (risk_areas : Option (List String)) : String :=
  if truthyList risk_areas then
    "Focus on these risk areas: " ++ String.intercalate ", " (risk_areas.getD []) ++ "\n\n"
  else ""

/-- User message of `/risk-analysis` (src/backend/api.py lines 116-119). -/
def risk_user_message (req : RiskAnalysisRequest) : String :=
  "Business Data:\n" ++ req.business_data ++ "\n\n" ++ risk_areas_section req.risk_areas ++
    "Provide comprehensive risk analysis."

/-- System prompt of `/compliance-check` (an f-string embedding the request's
`compliance_framework`). -/
def compliance_system_prompt (compliance_framework : String) : String :=
  "You are FREDRICK\x27s compliance module. Review documents for \n    compliance with " ++ compliance_framework ++ ". Identify gaps, violations, and \n    provide recommendations for achieving full compliance."

/-- User message of `/compliance-check` (src/backend/api.py line 135). -/
def compliance_user_message (req : ComplianceCheckRequest) : String :=
  "Document to review:\n" ++ req.document ++ "\n\nProvide compliance analysis."

/-- System prompt of `/due-diligence`. -/
def due_system_prompt : String :=
  "You are FREDRICK\x27s due diligence module. Conduct thorough \n    due diligence analysis covering financial health, legal standing, operational \n    efficiency, market position, and strategic viability. Flag red flags and provide \n    actionable insights."

/-- The optional labelled section of the `/due-diligence` user message:
appended only when `request.focus_areas` is truthy. -/
def focus_areas_section (focus_areas : Option (List String)) : String :=
  if truthyList focus_areas then
    "Focus areas: " ++ String.intercalate ", " (focus_areas.getD []) ++ "\n\n"
  else ""

/-- User message of `/due-diligence` (src/backend/api.py lines 152-155). -/
def due_user_message (req : DueDiligenceRequest) : String :=
  "Company Information:\n" ++ req.company_info ++ "\n\n" ++ focus_areas_section req.focus_areas ++
    "Provide comprehensive due diligence report."

/-- The (system prompt, user prompt) pair composed by the `/chat` handler. -/
def chat_prompts (req : ChatRequest) : String × String :=
  (chat_system_prompt, chat_user_message req)

/-- The (system prompt, user prompt) pair composed by the `/risk-analysis` handler. -/
def risk_prompts (req : RiskAnalysisRequest) : String × String :=
  (risk_system_prompt, risk_user_message req)

/-- The (system prompt, user prompt) pair composed by the `/compliance-check` handler. -/
def compliance_prompts (req : ComplianceCheckRequest) : String × String :=
  (compliance_system_prompt req.compliance_framework, compliance_user_message req)

/-- The (system prompt, user prompt) pair composed by the `/due-diligence` handler. -/
def due_prompts (req : DueDiligenceRequest) : String × String :=
  (due_system_prompt, due_user_message req)

/-- The `/chat` handler (src/backend/api.py lines 85-104).  The second
component counts invocations of the completion client. -/
def chat (expected api_key : Option String) (req : ChatRequest)
    (remote : String → String → Except String String) :
    Except HttpError ChatResponse × Nat :=
  match verify_api_key expected api_key with
  | .error e => (.error e, 0)
  | .ok _ =>
    match call_groq remote chat_system_prompt (chat_user_message req) with
    | .error e => (.error e, 1)
    | .ok response => (.ok ⟨response, "llama-3.3-70b-versatile"⟩, 1)

/-- The `/risk-analysis` handler (src/backend/api.py lines 106-123). -/
def risk_analysis (expected api_key : Option String) (req : RiskAnalysisRequest)
    (remote : String → String → Except String String) :
    Except HttpError RiskAnalysisResponse × Nat :=
  match verify_api_key expected api_key with
  | .error e => (.error e, 0)
  | .ok _ =>
    match call_groq remote risk_system_prompt (risk_user_message req) with
    | .error e => (.error e, 1)
    | .ok response => (.ok ⟨response, "llama-3.3-70b-versatile"⟩, 1)

/-- The `/compliance-check` handler (src/backend/api.py lines 125-139). -/
def compliance_check (expected api_key : Option String) (req : ComplianceCheckRequest)
    (remote : String → String → Except String String) :
    Except HttpError ComplianceCheckResponse × Nat :=
  match verify_api_key expected api_key with
  | .error e => (.error e, 0)
  | .ok _ =>
    match call_groq remote (compliance_system_prompt req.compliance_framework)
        (compliance_user_message req) with
    | .error e => (.error e, 1)
    | .ok response => (.ok ⟨response, req.compliance_framework⟩, 1)

/-- The `/due-diligence` handler (src/backend/api.py lines 141-159). -/
def due_diligence (expected api_key : Option String) (req : DueDiligenceRequest)
    (remote : String → String → Except String String) :
    Except HttpError DueDiligenceResponse × Nat :=
  match verify_api_key expected api_key with
  | .error e => (.error e, 0)
  | .ok _ =>
    match call_groq remote due_system_prompt (due_user_message req) with
    | .error e => (.error e, 1)
    | .ok response => (.ok ⟨response, "llama-3.3-70b-versatile"⟩, 1)

end Api

namespace Fredrick

/-- One conversation turn stored in `FREDRICK.conversation_history`
(src/backend/fredrick.py): role tag, text content, ISO timestamp. -/
structure Turn where
  role : String
  content : String
  timestamp : String
  deriving DecidableEq

/-- State of the interactive Gemini `FREDRICK` object: whether
`initialize_model` succeeded (`self.model` is not `None`) and the in-memory
conversation history list. -/
structure FREDRICK where
  model_initialized : Bool
  conversation_history : List Turn
  deriving DecidableEq

/-- The `full_message` computed by `FREDRICK.chat`: the user message, prefixed
with a `Context:` section when a truthy context dict was supplied.  `context`
models the `json.dumps` serialization of a provided truthy context dict;
`none` models an absent (or falsy) context. -/
def full_message_of (user_message : String) (context : Option String) : String :=
  match context with
  | some ctx_json => "Context: " ++ ctx_json ++ "\n\nMessage: " ++ user_message
  | none => user_message

/-- `FREDRICK.chat` (src/backend/fredrick.py lines 111-145).  `remote` models
`self.model.generate_content` followed by the `.text` access (`Except.error`
models any raised exception); `t1` and `t2` model the two `datetime.now()`
calls.  Returns the reply string and the updated object state. -/
def FREDRICK.chat (self : FREDRICK) (user_message : String) (context : Option String)
    (remote : String → Except String String) (t1 t2 : String) : String × FREDRICK :=
  if !self.model_initialized then
    ("FREDRICK is not properly initialized. Please check your Gemini API key.", self)
  else
    let full_message := full_message_of user_message context
    let hist1 := self.conversation_history ++ [⟨"user", full_message, t1⟩]
    match remote full_message with
    | .ok response_text =>
      (response_text,
        { self with conversation_history := hist1 ++ [⟨"assistant", response_text, t2⟩] })
    | .error e =>
      ("Error processing message: " ++ e, { self with conversation_history := hist1 })

/-- `FREDRICK.clear_history` (src/backend/fredrick.py lines 220-223). -/
def FREDRICK.clear_history (self : FREDRICK) : FREDRICK :=
  { self with conversation_history := [] }

end Fredrick

/-- A remote completion stub that always succeeds with text `t`. -/
def stub_ok (t : String) : String → String → Except String String :=
  fun _ _ => .ok t

/-- A remote completion stub that always raises with message `e`. -/
def stub_err (e : String) : String → String → Except String String :=
  fun _ _ => .error e

/-- A Gemini `generate_content` stub that always succeeds with text `t`. -/
def stub_gemini_ok (t : String) : String → Except String String :=
  fun _ => .ok t

/-- A Gemini `generate_content` stub that always raises with message `e`. -/
def stub_gemini_err (e : String) : String → Except String String :=
  fun _ => .error e

/-- `needle` occurs as a contiguous substring of `hay`. -/
abbrev ContainsStr (hay needle : String) : Prop :=
  needle.data <:+: hay.data

/-- Sample `/chat` request used by witnesses. -/
def sample_chat_request : Api.ChatRequest :=
  ⟨"What are the key risks of expansion?", some "Southern Shade LLC is considering Mexico"⟩

/-- Sample `/risk-analysis` request used by witnesses. -/
def sample_risk_request : Api.RiskAnalysisRequest :=
  ⟨"Revenue: 2.5M annually", some ["financial", "operational", "legal"]⟩

/-- Sample `/compliance-check` request used by witnesses. -/
def sample_compliance_request : Api.ComplianceCheckRequest :=
  ⟨"Employee shall work 50 hours per week", "Texas Labor Law"⟩

/-- Sample `/due-diligence` request used by witnesses. -/
def sample_due_request : Api.DueDiligenceRequest :=
  ⟨"XYZ Construction Inc., founded 2018", some ["financial health", "legal risks"]⟩

/-! ## Helper lemmas -/

theorem verify_api_key_invalid {k : String} (hk : k ≠ "") {header : Option String}
    (hh : header ≠ some k) :
    Api.verify_api_key (some k) header = .error ⟨401, "Invalid API key"⟩ := by
  simp [Api.verify_api_key, hk, hh]

theorem verify_api_key_ok {k : String} (hk : k ≠ "") :
    Api.verify_api_key (some k) (some k) = .ok k := by
  simp [Api.verify_api_key, hk]

/-- An occurrence of `n` in `a ++ b` lies inside `a`, inside `b`, or straddles
the boundary with a nonempty suffix of `a` followed by a nonempty prefix of `b`. -/
theorem isInfix_append_cases {α : Type} {n a b : List α} (h : n <:+: a ++ b) :
    n <:+: a ∨ n <:+: b ∨
      ∃ n₁ n₂, n = n₁ ++ n₂ ∧ n₁ ≠ [] ∧ n₂ ≠ [] ∧ n₁ <:+ a ∧ n₂ <+: b := by
  obtain ⟨s, t, hst⟩ := h
  rw [List.append_assoc] at hst
  rcases List.append_eq_append_iff.mp hst with ⟨a2, ha2, hnt⟩ | ⟨c2, _, hb2⟩
  · rcases List.append_eq_append_iff.mp hnt with ⟨x, hx, _⟩ | ⟨n2, hn2, hb⟩
    · exact Or.inl ⟨s, x, by rw [ha2, hx, List.append_assoc]⟩
    · by_cases hA : a2 = []
      · subst hA
        rw [List.nil_append] at hn2
        subst hn2
        exact Or.inr (Or.inl ⟨[], t, by rw [List.nil_append]; exact hb.symm⟩)
      · by_cases hN : n2 = []
        · subst hN
          rw [List.append_nil] at hn2
          exact Or.inl ⟨s, [], by rw [List.append_nil, hn2]; exact ha2.symm⟩
        · exact Or.inr (Or.inr ⟨a2, n2, hn2, hA, hN, ⟨s, ha2.symm⟩, ⟨t, hb.symm⟩⟩)
  · exact Or.inr (Or.inl ⟨c2, t, by rw [hb2, List.append_assoc]⟩)

/-- If a newline-free word occurs in `a ++ (m ++ b)`, does not occur in `a` or
in `b`, every nonempty suffix of `a` contains a newline, and every nonempty
prefix of `b` contains a newline, then the word occurs inside `m`. -/
theorem isInfix_middle {n a m b : List Char}
    (hA : ¬ n <:+: a) (hB : ¬ n <:+: b)
    (hnl : ('\n') ∉ n)
    (ha : ∀ x, x <:+ a → x = [] ∨ ('\n') ∈ x)
    (hb : ∀ x, x <+: b → x = [] ∨ ('\n') ∈ x)
    (h : n <:+: a ++ (m ++ b)) : n <:+: m := by
  rcases isInfix_append_cases h with h1 | h2 | ⟨n₁, n₂, heq, hne1, _, hsuf, _⟩
  · exact absurd h1 hA
  · rcases isInfix_append_cases h2 with g1 | g2 | ⟨m₁, m₂, geq, _, gne2, _, gpre⟩
    · exact g1
    · exact absurd g2 hB
    · exact absurd
        (show ('\n') ∈ n by
          rw [geq]; exact List.mem_append_right m₁ ((hb m₂ gpre).resolve_left gne2)) hnl
  · exact absurd
      (show ('\n') ∈ n by
        rw [heq]; exact List.mem_append_left n₂ ((ha n₁ hsuf).resolve_left hne1)) hnl

/-- A word that is a prefix of `s` occurs in any list that `s` is a suffix of. -/
theorem isInfix_of_isPrefix_of_isSuffix {n s l : List Char} (h₁ : n <+: s) (h₂ : s <:+ l) :
    n <:+: l :=
  h₁.isInfix.trans h₂.isInfix

/-! ## Claims -/

/-- C2: authentication resolves to exactly one of two failure statuses by
cause: with the server-side secret unconfigured (unset env var, or empty —
falsy in Python), `verify_api_key` raises 500 "API key not configured"; with
a configured secret but an absent or unequal `X-API-Key` header it raises
401 "Invalid API key"; with a matching header it returns the key and the
handler proceeds. -/
theorem auth_status_by_cause (expected api_key : Option String) :
    ((expected = none ∨ expected = some "") →
      Api.verify_api_key expected api_key = .error ⟨500, "API key not configured"⟩) ∧
    (∀ k, expected = some k → k ≠ "" → api_key ≠ some k →
      Api.verify_api_key expected api_key = .error ⟨401, "Invalid API key"⟩) ∧
    (∀ k, expected = some k → k ≠ "" → api_key = some k →
      Api.verify_api_key expected api_key = .ok k) := by
  refine ⟨?_, ?_, ?_⟩
  · rintro (rfl | rfl) <;> simp [Api.verify_api_key]
  · rintro k rfl hk hne
    exact verify_api_key_invalid hk hne
  · rintro k rfl hk rfl
    exact verify_api_key_ok hk

theorem auth_status_by_cause_witness :
    Api.verify_api_key none (some "x") = .error ⟨500, "API key not configured"⟩ ∧
    Api.verify_api_key (some "secret-key") none = .error ⟨401, "Invalid API key"⟩ ∧
    Api.verify_api_key (some "secret-key") (some "wrong") = .error ⟨401, "Invalid API key"⟩ ∧
    Api.verify_api_key (some "secret-key") (some "secret-key") = .ok "secret-key" :=
  ⟨(auth_status_by_cause none (some "x")).1 (Or.inl rfl),
   (auth_status_by_cause (some "secret-key") none).2.1 "secret-key" rfl (by decide) (by decide),
   (auth_status_by_cause (some "secret-key") (some "wrong")).2.1 "secret-key" rfl (by decide)
     (by decide),
   (auth_status_by_cause (some "secret-key") (some "secret-key")).2.2 "secret-key" rfl
     (by decide) rfl⟩

/-- C1: with a configured secret `k`, every request to one of the four
category endpoints whose `X-API-Key` header is missing or differs from `k`
is answered with 401 "Invalid API key", and the completion client is invoked
zero times. -/
theorem unauthorized_rejected_without_remote_call
    (k : String) (hk : k ≠ "") (header : Option String) (hh : header ≠ some k)
    (creq : Api.ChatRequest) (rreq : Api.RiskAnalysisRequest)
    (qreq : Api.ComplianceCheckRequest) (dreq : Api.DueDiligenceRequest)
    (remote : String → String → Except String String) :
    Api.chat (some k) header creq remote = (.error ⟨401, "Invalid API key"⟩, 0) ∧
    Api.risk_analysis (some k) header rreq remote = (.error ⟨401, "Invalid API key"⟩, 0) ∧
    Api.compliance_check (some k) header qreq remote = (.error ⟨401, "Invalid API key"⟩, 0) ∧
    Api.due_diligence (some k) header dreq remote = (.error ⟨401, "Invalid API key"⟩, 0) := by
  have hv := verify_api_key_invalid hk hh
  exact ⟨by simp [Api.chat, hv], by simp [Api.risk_analysis, hv],
    by simp [Api.compliance_check, hv], by simp [Api.due_diligence, hv]⟩

theorem unauthorized_rejected_without_remote_call_witness :
    Api.chat (some "secret-key") none sample_chat_request (stub_ok "text") =
      (.error ⟨401, "Invalid API key"⟩, 0) ∧
    Api.risk_analysis (some "secret-key") none sample_risk_request (stub_ok "text") =
      (.error ⟨401, "Invalid API key"⟩, 0) ∧
    Api.compliance_check (some "secret-key") none sample_compliance_request (stub_ok "text") =
      (.error ⟨401, "Invalid API key"⟩, 0) ∧
    Api.due_diligence (some "secret-key") none sample_due_request (stub_ok "text") =
      (.error ⟨401, "Invalid API key"⟩, 0) :=
  unauthorized_rejected_without_remote_call "secret-key" (by decide) none (by decide)
    sample_chat_request sample_risk_request sample_compliance_request sample_due_request
    (stub_ok "text")

/-- C3: on an authenticated request to any of the four category endpoints, if
the remote completion call on the composed prompts raises with message `e`,
the endpoint answers 500 with detail `"Groq API error: " ++ e` (the causal
text), and the result carries no `response`/`analysis`/`compliance_report`/
`due_diligence_report` payload: the first component is `Except.error`, which
by construction holds no response body. -/
theorem upstream_error_wrapped_500 (k : String) (hk : k ≠ "") (e : String)
    (remote : String → String → Except String String)
    (creq : Api.ChatRequest) (rreq : Api.RiskAnalysisRequest)
    (qreq : Api.ComplianceCheckRequest) (dreq : Api.DueDiligenceRequest)
    (h1 : remote Api.chat_system_prompt (Api.chat_user_message creq) = .error e)
    (h2 : remote Api.risk_system_prompt (Api.risk_user_message rreq) = .error e)
    (h3 : remote (Api.compliance_system_prompt qreq.compliance_framework)
      (Api.compliance_user_message qreq) = .error e)
    (h4 : remote Api.due_system_prompt (Api.due_user_message dreq) = .error e) :
    Api.chat (some k) (some k) creq remote =
      (.error ⟨500, "Groq API error: " ++ e⟩, 1) ∧
    Api.risk_analysis (some k) (some k) rreq remote =
      (.error ⟨500, "Groq API error: " ++ e⟩, 1) ∧
    Api.compliance_check (some k) (some k) qreq remote =
      (.error ⟨500, "Groq API error: " ++ e⟩, 1) ∧
    Api.due_diligence (some k) (some k) dreq remote =
      (.error ⟨500, "Groq API error: " ++ e⟩, 1) := by
  have hv := verify_api_key_ok hk
  exact ⟨by simp [Api.chat, Api.call_groq, hv, h1],
    by simp [Api.risk_analysis, Api.call_groq, hv, h2],
    by simp [Api.compliance_check, Api.call_groq, hv, h3],
    by simp [Api.due_diligence, Api.call_groq, hv, h4]⟩

theorem upstream_error_wrapped_500_witness :
    Api.chat (some "secret-key") (some "secret-key") sample_chat_request (stub_err "boom") =
      (.error ⟨500, "Groq API error: " ++ "boom"⟩, 1) ∧
    Api.risk_analysis (some "secret-key") (some "secret-key") sample_risk_request
        (stub_err "boom") =
      (.error ⟨500, "Groq API error: " ++ "boom"⟩, 1) ∧
    Api.compliance_check (some "secret-key") (some "secret-key") sample_compliance_request
        (stub_err "boom") =
      (.error ⟨500, "Groq API error: " ++ "boom"⟩, 1) ∧
    Api.due_diligence (some "secret-key") (some "secret-key") sample_due_request
        (stub_err "boom") =
      (.error ⟨500, "Groq API error: " ++ "boom"⟩, 1) :=
  upstream_error_wrapped_500 "secret-key" (by decide) "boom" (stub_err "boom")
    sample_chat_request sample_risk_request sample_compliance_request sample_due_request
    rfl rfl rfl rfl

/-- C9: a present-but-empty optional list field composes exactly the same
user prompt as an absent field, for both `/risk-analysis` and
`/due-diligence` (Python `if request.risk_areas:` treats `[]` as falsy). -/
theorem empty_list_section_same_as_absent :
    (∀ bd : String,
      Api.risk_user_message ⟨bd, some []⟩ = Api.risk_user_message ⟨bd, none⟩) ∧
    (∀ ci : String,
      Api.due_user_message ⟨ci, some []⟩ = Api.due_user_message ⟨ci, none⟩) :=
  ⟨fun _ => rfl, fun _ => rfl⟩

/-- C5: prompt composition is a deterministic, side-effect-free function of
the request category and its fields: for each category endpoint, two requests
with identical input fields compose the identical (system_prompt,
user_prompt) pair. -/
theorem prompt_composition_deterministic :
    (∀ r₁ r₂ : Api.ChatRequest, r₁.message = r₂.message → r₁.context = r₂.context →
      Api.chat_prompts r₁ = Api.chat_prompts r₂) ∧
    (∀ r₁ r₂ : Api.RiskAnalysisRequest, r₁.business_data = r₂.business_data →
      r₁.risk_areas = r₂.risk_areas → Api.risk_prompts r₁ = Api.risk_prompts r₂) ∧
    (∀ r₁ r₂ : Api.ComplianceCheckRequest, r₁.document = r₂.document →
      r₁.compliance_framework = r₂.compliance_framework →
      Api.compliance_prompts r₁ = Api.compliance_prompts r₂) ∧
    (∀ r₁ r₂ : Api.DueDiligenceRequest, r₁.company_info = r₂.company_info →
      r₁.focus_areas = r₂.focus_areas → Api.due_prompts r₁ = Api.due_prompts r₂) := by
  refine ⟨?_, ?_, ?_, ?_⟩ <;>
    (rintro ⟨a, b⟩ ⟨a', b'⟩ h1 h2; cases h1; cases h2; rfl)

theorem prompt_composition_deterministic_witness :
    Api.chat_prompts sample_chat_request = Api.chat_prompts sample_chat_request ∧
    Api.risk_prompts sample_risk_request = Api.risk_prompts sample_risk_request ∧
    Api.compliance_prompts sample_compliance_request =
      Api.compliance_prompts sample_compliance_request ∧
    Api.due_prompts sample_due_request = Api.due_prompts sample_due_request :=
  ⟨prompt_composition_deterministic.1 sample_chat_request sample_chat_request rfl rfl,
   prompt_composition_deterministic.2.1 sample_risk_request sample_risk_request rfl rfl,
   prompt_composition_deterministic.2.2.1 sample_compliance_request sample_compliance_request
     rfl rfl,
   prompt_composition_deterministic.2.2.2 sample_due_request sample_due_request rfl rfl⟩

/-- C7: on an initialized interactive `FREDRICK` object, every `chat` call
appends role-tagged, timestamped turns to the in-memory ordered history,
preserving all previously stored turns in order: on a successful completion
it appends the user turn followed by the assistant turn, on a raised
exception it appends the user turn; `clear_history` resets the history to
the empty sequence.  (The history lives only in the object state; the source
never writes it anywhere else.) -/
theorem chat_appends_turns_and_clear_resets :
    (∀ (s : Fredrick.FREDRICK) (msg : String) (ctx : Option String)
        (remote : String → Except String String) (t1 t2 : String),
      s.model_initialized = true →
      (∀ t, remote (Fredrick.full_message_of msg ctx) = .ok t →
        (Fredrick.FREDRICK.chat s msg ctx remote t1 t2).2.conversation_history =
          s.conversation_history ++
            [⟨"user", Fredrick.full_message_of msg ctx, t1⟩, ⟨"assistant", t, t2⟩]) ∧
      (∀ e, remote (Fredrick.full_message_of msg ctx) = .error e →
        (Fredrick.FREDRICK.chat s msg ctx remote t1 t2).2.conversation_history =
          s.conversation_history ++ [⟨"user", Fredrick.full_message_of msg ctx, t1⟩])) ∧
    (∀ s : Fredrick.FREDRICK,
      (Fredrick.FREDRICK.clear_history s).conversation_history = []) := by
  constructor
  · intro s msg ctx remote t1 t2 hm
    constructor
    · intro t ht
      simp [Fredrick.FREDRICK.chat, hm, ht]
    · intro e he
      simp [Fredrick.FREDRICK.chat, hm, he]
  · intro s
    rfl

theorem chat_appends_turns_and_clear_resets_witness :
    ((Fredrick.FREDRICK.chat ⟨true, []⟩ "hello" none (stub_gemini_ok "hi") "t1"
        "t2").2.conversation_history =
      ([] : List Fredrick.Turn) ++
        [⟨"user", Fredrick.full_message_of "hello" none, "t1"⟩, ⟨"assistant", "hi", "t2"⟩]) ∧
    (Fredrick.FREDRICK.clear_history ⟨true, []⟩).conversation_history = [] :=
  ⟨(chat_appends_turns_and_clear_resets.1 ⟨true, []⟩ "hello" none (stub_gemini_ok "hi")
      "t1" "t2" rfl).1 "hi" rfl,
   chat_appends_turns_and_clear_resets.2 ⟨true, []⟩⟩

/-- C10: on the interactive Gemini `FREDRICK.chat`, if the remote
`generate_content` call raises with message `e`, the user turn appended
before the call remains in `conversation_history`, no assistant turn is
added, and the returned value is the error message string
`"Error processing message: " ++ e` rather than a completion — the history
mutation is not rolled back on error. -/
theorem gemini_error_keeps_user_turn (s : Fredrick.FREDRICK)
    (hm : s.model_initialized = true) (msg : String) (ctx : Option String)
    (e t1 t2 : String) :
    Fredrick.FREDRICK.chat s msg ctx (stub_gemini_err e) t1 t2 =
      ("Error processing message: " ++ e,
       { s with conversation_history :=
           s.conversation_history ++ [⟨"user", Fredrick.full_message_of msg ctx, t1⟩] }) := by
  simp [Fredrick.FREDRICK.chat, hm, stub_gemini_err]

theorem gemini_error_keeps_user_turn_witness :
    Fredrick.FREDRICK.chat ⟨true, []⟩ "hello" none (stub_gemini_err "quota") "t1" "t2" =
      ("Error processing message: " ++ "quota",
       { model_initialized := true,
         conversation_history :=
           ([] : List Fredrick.Turn) ++
             [⟨"user", Fredrick.full_message_of "hello" none, "t1"⟩] }) :=
  gemini_error_keeps_user_turn ⟨true, []⟩ rfl "hello" none "quota" "t1" "t2"

/-- C8 counterexample: the code places no non-emptiness guarantee on the
report.  On an authenticated `/compliance-check` whose remote completion
succeeds with the empty completion text, the endpoint returns success with
`compliance_report = ""` — an empty, not non-empty, string — refuting the
claim that every successful call yields a non-empty `compliance_report`. -/
theorem compliance_empty_report_counterexample :
    (Api.compliance_check (some "secret-key") (some "secret-key")
        ⟨"Employee shall work 50 hours per week", "Texas Labor Law"⟩ (stub_ok "")).1 =
      Except.ok { compliance_report := "", framework := "Texas Labor Law" } := rfl

/-- C8 (amended): for every authenticated `/compliance-check` whose remote
completion call succeeds with text `t`, the response is a success carrying
`framework` equal to the request's `compliance_framework` and
`compliance_report` equal to the completion text `t` — hence non-empty
whenever the completion text is non-empty. -/
theorem compliance_success_response (k : String) (hk : k ≠ "") (t : String)
    (req : Api.ComplianceCheckRequest)
    (remote : String → String → Except String String)
    (h : remote (Api.compliance_system_prompt req.compliance_framework)
      (Api.compliance_user_message req) = .ok t) :
    Api.compliance_check (some k) (some k) req remote =
      (.ok ⟨t, req.compliance_framework⟩, 1) ∧
    (t ≠ "" → ∀ resp : Api.ComplianceCheckResponse,
      (Api.compliance_check (some k) (some k) req remote).1 = .ok resp →
      resp.compliance_report ≠ "" ∧ resp.framework = req.compliance_framework) := by
  have hv := verify_api_key_ok hk
  have hmain : Api.compliance_check (some k) (some k) req remote =
      (.ok ⟨t, req.compliance_framework⟩, 1) := by
    simp [Api.compliance_check, Api.call_groq, hv, h]
  refine ⟨hmain, fun hne resp hresp => ?_⟩
  rw [hmain] at hresp
  cases hresp
  exact ⟨hne, rfl⟩

theorem compliance_success_response_witness :
    Api.compliance_check (some "secret-key") (some "secret-key") sample_compliance_request
        (stub_ok "Non-compliant: overtime pay required") =
      (.ok ⟨"Non-compliant: overtime pay required", "Texas Labor Law"⟩, 1) ∧
    ("Non-compliant: overtime pay required" ≠ "" →
      ∀ resp : Api.ComplianceCheckResponse,
        (Api.compliance_check (some "secret-key") (some "secret-key")
          sample_compliance_request (stub_ok "Non-compliant: overtime pay required")).1 =
          .ok resp →
        resp.compliance_report ≠ "" ∧
          resp.framework = sample_compliance_request.compliance_framework) :=
  compliance_success_response "secret-key" (by decide) "Non-compliant: overtime pay required"
    sample_compliance_request (stub_ok "Non-compliant: overtime pay required") rfl

theorem string_append_cancel_both {p x s y : String} (h : p ++ x ++ s = p ++ y ++ s) :
    x = y := by
  have hd := congrArg String.data h
  simp only [String.data_append] at hd
  exact String.ext (List.append_cancel_left (List.append_cancel_right hd))

/-- C4 counterexample: prompt composition is not injective on the input
fields.  Two `/risk-analysis` requests with the same `business_data` and
different `risk_areas` lists — `["a", "b"]` versus `["a, b"]` — compose the
same user prompt, because the lists are joined with `", "` before embedding. -/
theorem prompt_injectivity_counterexample :
    Api.risk_user_message ⟨"d", some ["a", "b"]⟩ =
      Api.risk_user_message ⟨"d", some ["a, b"]⟩ ∧
    (["a", "b"] : List String) ≠ ["a, b"] :=
  ⟨rfl, by decide⟩

/-- C4 (amended): with the other field held fixed, the composed user prompt
determines the varying field up to its rendered section: for `/risk-analysis`
and `/due-diligence`, two requests with the same required text field compose
equal user prompts exactly when their optional list fields render to the same
labelled section text (so lists whose `", "`-joins differ give textually
different prompts, while distinct lists with equal joins collide), and two
requests with the same list field compose equal prompts exactly when their
required text fields are equal. -/
theorem prompt_equality_iff_field_sections :
    (∀ (bd : String) (r₁ r₂ : Option (List String)),
      Api.risk_user_message ⟨bd, r₁⟩ = Api.risk_user_message ⟨bd, r₂⟩ ↔
        Api.risk_areas_section r₁ = Api.risk_areas_section r₂) ∧
    (∀ (bd₁ bd₂ : String) (r : Option (List String)),
      Api.risk_user_message ⟨bd₁, r⟩ = Api.risk_user_message ⟨bd₂, r⟩ ↔ bd₁ = bd₂) ∧
    (∀ (ci : String) (f₁ f₂ : Option (List String)),
      Api.due_user_message ⟨ci, f₁⟩ = Api.due_user_message ⟨ci, f₂⟩ ↔
        Api.focus_areas_section f₁ = Api.focus_areas_section f₂) ∧
    (∀ (ci₁ ci₂ : String) (f : Option (List String)),
      Api.due_user_message ⟨ci₁, f⟩ = Api.due_user_message ⟨ci₂, f⟩ ↔ ci₁ = ci₂) := by
  refine ⟨fun bd r₁ r₂ => ⟨fun h => ?_, fun h => ?_⟩,
    fun bd₁ bd₂ r => ⟨fun h => ?_, fun h => ?_⟩,
    fun ci f₁ f₂ => ⟨fun h => ?_, fun h => ?_⟩,
    fun ci₁ ci₂ f => ⟨fun h => ?_, fun h => ?_⟩⟩
  · have h' : "Business Data:\n" ++ bd ++ "\n\n" ++ Api.risk_areas_section r₁ ++
        "Provide comprehensive risk analysis." =
        "Business Data:\n" ++ bd ++ "\n\n" ++ Api.risk_areas_section r₂ ++
        "Provide comprehensive risk analysis." := h
    exact string_append_cancel_both h'
  · exact congrArg
      (fun z => "Business Data:\n" ++ bd ++ "\n\n" ++ z ++
        "Provide comprehensive risk analysis.") h
  · have hd := congrArg String.data h
    simp only [Api.risk_user_message, String.data_append, List.append_assoc] at hd
    exact String.ext (List.append_cancel_right (List.append_cancel_left hd))
  · cases h; rfl
  · have h' : "Company Information:\n" ++ ci ++ "\n\n" ++ Api.focus_areas_section f₁ ++
        "Provide comprehensive due diligence report." =
        "Company Information:\n" ++ ci ++ "\n\n" ++ Api.focus_areas_section f₂ ++
        "Provide comprehensive due diligence report." := h
    exact string_append_cancel_both h'
  · exact congrArg
      (fun z => "Company Information:\n" ++ ci ++ "\n\n" ++ z ++
        "Provide comprehensive due diligence report.") h
  · have hd := congrArg String.data h
    simp only [Api.due_user_message, String.data_append, List.append_assoc] at hd
    exact String.ext (List.append_cancel_right (List.append_cancel_left hd))
  · cases h; rfl

theorem label_not_in_message {label pre mid post : List Char}
    (h1 : ¬ label <:+: pre) (h2 : ¬ label <:+: post) (h3 : ('\n') ∉ label)
    (h4 : ∀ x ∈ pre.tails, x = [] ∨ ('\n') ∈ x)
    (h5 : ∀ x ∈ post.inits, x = [] ∨ ('\n') ∈ x)
    (h : label <:+: pre ++ (mid ++ post)) : label <:+: mid :=
  isInfix_middle h1 h2 h3
    (fun x hx => h4 x ((List.mem_tails x pre).mpr hx))
    (fun x hx => h5 x ((List.mem_inits x post).mpr hx))
    h

theorem isPrefix_append_left {α : Type} {n f y : List α} (h : n <+: f) : n <+: f ++ y :=
  h.trans ⟨y, rfl⟩

theorem suffix_triple {α : Type} {a b c x : List α} : x <:+ a ++ (b ++ (c ++ x)) :=
  ⟨a ++ (b ++ c), by simp [List.append_assoc]⟩

theorem chat_user_message_data_some (msg c : String) (hc : c ≠ "") :
    (Api.chat_user_message ⟨msg, some c⟩).data =
      ("Context: ").data ++ (c.data ++ (("\n\nQuery: ").data ++ msg.data)) := by
  simp [Api.chat_user_message, hc, String.data_append, List.append_assoc]

theorem risk_user_message_data_not_truthy (bd : String) (ras : Option (List String))
    (h : Api.truthyList ras = false) :
    (Api.risk_user_message ⟨bd, ras⟩).data =
      ("Business Data:\n").data ++ (bd.data ++
        (("\n\n").data ++ ("Provide comprehensive risk analysis.").data)) := by
  have hs : Api.risk_areas_section ras = "" := by simp [Api.risk_areas_section, h]
  simp [Api.risk_user_message, hs, String.data_append, List.append_assoc]

theorem risk_user_message_data_cons (bd hd0 : String) (tl : List String) :
    (Api.risk_user_message ⟨bd, some (hd0 :: tl)⟩).data =
      ("Business Data:\n").data ++ (bd.data ++ (("\n\n").data ++
        (("Focus on these risk areas: ").data ++
          ((String.intercalate ", " (hd0 :: tl)).data ++
            (("\n\n").data ++ ("Provide comprehensive risk analysis.").data))))) := by
  simp [Api.risk_user_message, Api.risk_areas_section, Api.truthyList,
    String.data_append, List.append_assoc]

theorem due_user_message_data_not_truthy (ci : String) (fas : Option (List String))
    (h : Api.truthyList fas = false) :
    (Api.due_user_message ⟨ci, fas⟩).data =
      ("Company Information:\n").data ++ (ci.data ++
        (("\n\n").data ++ ("Provide comprehensive due diligence report.").data)) := by
  have hs : Api.focus_areas_section fas = "" := by simp [Api.focus_areas_section, h]
  simp [Api.due_user_message, hs, String.data_append, List.append_assoc]

theorem due_user_message_data_cons (ci hd0 : String) (tl : List String) :
    (Api.due_user_message ⟨ci, some (hd0 :: tl)⟩).data =
      ("Company Information:\n").data ++ (ci.data ++ (("\n\n").data ++
        (("Focus areas: ").data ++
          ((String.intercalate ", " (hd0 :: tl)).data ++
            (("\n\n").data ++ ("Provide comprehensive due diligence report.").data))))) := by
  simp [Api.due_user_message, Api.focus_areas_section, Api.truthyList,
    String.data_append, List.append_assoc]

/-- C6 counterexample: both directions of the claim fail on edge inputs.  A
`/due-diligence` request whose `focus_areas` field is present but empty
composes a prompt with no `Focus areas:` section (present does not imply
appears); and a request with `focus_areas` absent whose free-text
`company_info` itself contains `Focus areas:` composes a prompt in which the
label does occur (absent does not imply the label appears nowhere). -/
theorem labeled_section_counterexample :
    ¬ ContainsStr (Api.due_user_message ⟨"XYZ Construction Inc.", some []⟩) "Focus areas:" ∧
    ContainsStr (Api.due_user_message ⟨"Focus areas: legal", none⟩) "Focus areas:" := by
  constructor <;> decide

/-- C6 (amended): provided the free-text field does not itself contain the
label, an absent — or present-but-falsy (empty list, empty string) —
optional field means the labelled section's label occurs nowhere in the
composed user prompt; a present, non-empty optional field means the label
does occur.  This holds for `/chat`'s `context`, `/risk-analysis`'s
`risk_areas` and `/due-diligence`'s `focus_areas`. -/
theorem labeled_section_presence :
    (∀ (msg : String) (ctx : Option String), Api.truthyStr ctx = false →
      ¬ ContainsStr msg "Context: " →
      ¬ ContainsStr (Api.chat_user_message ⟨msg, ctx⟩) "Context: ") ∧
    (∀ msg c : String, c ≠ "" →
      ContainsStr (Api.chat_user_message ⟨msg, some c⟩) "Context: ") ∧
    (∀ (bd : String) (ras : Option (List String)), Api.truthyList ras = false →
      ¬ ContainsStr bd "Focus on these risk areas:" →
      ¬ ContainsStr (Api.risk_user_message ⟨bd, ras⟩) "Focus on these risk areas:") ∧
    (∀ (bd : String) (l : List String), l ≠ [] →
      ContainsStr (Api.risk_user_message ⟨bd, some l⟩) "Focus on these risk areas:") ∧
    (∀ (ci : String) (fas : Option (List String)), Api.truthyList fas = false →
      ¬ ContainsStr ci "Focus areas:" →
      ¬ ContainsStr (Api.due_user_message ⟨ci, fas⟩) "Focus areas:") ∧
    (∀ (ci : String) (l : List String), l ≠ [] →
      ContainsStr (Api.due_user_message ⟨ci, some l⟩) "Focus areas:") := by
  refine ⟨?_, ?_, ?_, ?_, ?_, ?_⟩
  · intro msg ctx ht hc hcont
    cases ctx with
    | none => exact hc hcont
    | some c =>
      have hc0 : c = "" := by simpa [Api.truthyStr] using ht
      subst hc0
      rw [show Api.chat_user_message ⟨msg, some ""⟩ = msg by
        simp [Api.chat_user_message]] at hcont
      exact hc hcont
  · intro msg c hc
    show ("Context: ").data <:+: (Api.chat_user_message ⟨msg, some c⟩).data
    rw [chat_user_message_data_some msg c hc]
    exact (isPrefix_append_left (List.prefix_rfl)).isInfix
  · intro bd ras ht hbd hcont
    rw [ContainsStr, risk_user_message_data_not_truthy bd ras ht] at hcont
    refine hbd (label_not_in_message ?_ ?_ ?_ ?_ ?_ hcont)
    · decide
    · decide
    · decide
    · decide
    · decide
  · intro bd l hl
    cases l with
    | nil => exact absurd rfl hl
    | cons hd0 tl =>
      show ("Focus on these risk areas:").data <:+: _
      rw [risk_user_message_data_cons bd hd0 tl]
      exact isInfix_of_isPrefix_of_isSuffix
        (isPrefix_append_left (by decide)) suffix_triple
  · intro ci fas ht hci hcont
    rw [ContainsStr, due_user_message_data_not_truthy ci fas ht] at hcont
    refine hci (label_not_in_message ?_ ?_ ?_ ?_ ?_ hcont)
    · decide
    · decide
    · decide
    · decide
    · decide
  · intro ci l hl
    cases l with
    | nil => exact absurd rfl hl
    | cons hd0 tl =>
      show ("Focus areas:").data <:+: _
      rw [due_user_message_data_cons ci hd0 tl]
      exact isInfix_of_isPrefix_of_isSuffix
        (isPrefix_append_left (by decide)) suffix_triple

theorem labeled_section_presence_witness :
    (¬ ContainsStr (Api.chat_user_message ⟨"quarterly outlook", none⟩) "Context: ") ∧
    (¬ ContainsStr (Api.chat_user_message ⟨"quarterly outlook", some ""⟩) "Context: ") ∧
    ContainsStr (Api.chat_user_message ⟨"quarterly outlook", some "expansion"⟩) "Context: " ∧
    (¬ ContainsStr (Api.risk_user_message ⟨"Revenue: 2.5M", none⟩)
      "Focus on these risk areas:") ∧
    ContainsStr (Api.risk_user_message ⟨"Revenue: 2.5M", some ["financial"]⟩)
      "Focus on these risk areas:" ∧
    (¬ ContainsStr (Api.due_user_message ⟨"XYZ Construction Inc.", none⟩) "Focus areas:") ∧
    ContainsStr (Api.due_user_message ⟨"XYZ Construction Inc.", some ["legal"]⟩)
      "Focus areas:" :=
  ⟨labeled_section_presence.1 "quarterly outlook" none rfl (by decide),
   labeled_section_presence.1 "quarterly outlook" (some "") rfl (by decide),
   labeled_section_presence.2.1 "quarterly outlook" "expansion" (by decide),
   labeled_section_presence.2.2.1 "Revenue: 2.5M" none rfl (by decide),
   labeled_section_presence.2.2.2.1 "Revenue: 2.5M" ["financial"] (by decide),
   labeled_section_presence.2.2.2.2.1 "XYZ Construction Inc." none rfl (by decide),
   labeled_section_presence.2.2.2.2.2 "XYZ Construction Inc." ["legal"] (by decide)⟩

end FredrickAI
